import Mathlib

/-!
Verification of the zebra.tools library (TypeScript) against its
natural-language specification, via a shallow embedding in Lean 4.

Strings are modelled as `List Char`, byte buffers (`Uint8Array`) as
`List Nat`, and JavaScript numbers as `Int` (all numeric values the
claims exercise are integers).  A JavaScript function that can `throw`
is embedded as an `Option`-returning function with `none` for the
thrown case.
-/

/-- JavaScript runtime values that flow through the ZPL parameter
engine: numbers (modelled as integers), strings (as character lists),
booleans, and `Uint8Array` byte buffers (as lists of byte values). -/
inductive JSValue where
  | num   (n : Int)
  | str   (s : List Char)
  | bool  (b : Bool)
  | bytes (bs : List Nat)
deriving DecidableEq, Repr

/-- Decimal digit test, mirroring the character class `[0-9]`. -/
def isDigitChar (c : Char) : Bool := '0' ≤ c && c ≤ '9'

/-- Value of a list of decimal digit characters. -/
def digitsToNat (s : List Char) : Nat :=
  s.foldl (fun acc c => acc * 10 + (c.toNat - '0'.toNat)) 0

/-- JavaScript `Number(string)` coercion, restricted to the integer
strings this library can meet: surrounding spaces are trimmed, the
empty string is 0, an optional sign followed by decimal digits parses
to the signed value, and anything else is `NaN` (modelled `none`). -/
def jsStringToNumber (s : List Char) : Option Int :=
  let t := ((s.dropWhile (· = ' ')).reverse.dropWhile (· = ' ')).reverse
  if t.isEmpty then some 0
  else if t.all isDigitChar then some (digitsToNat t)
  else
    match t with
    | '-' :: rest =>
      if !rest.isEmpty && rest.all isDigitChar then some (-(digitsToNat rest : Int)) else none
    | '+' :: rest =>
      if !rest.isEmpty && rest.all isDigitChar then some (digitsToNat rest) else none
    | _ => none

/-- JavaScript `Number(value)` coercion (`none` models `NaN`):
numbers are themselves, booleans coerce to 1/0, strings parse as
above, and a `Uint8Array` coerces through its comma-joined string
form, which is numeric only for the empty and one-element buffers. -/
def jsToNumber : JSValue → Option Int
  | .num n   => some n
  | .bool b  => some (if b then 1 else 0)
  | .str s   => jsStringToNumber s
  | .bytes bs =>
    match bs with
    | []  => some 0
    | [b] => some (b : Int)
    | _   => none

/-- `ZplTypeIntegerRange` from src/src/zebra-zpl-types.ts. -/
structure ZplTypeIntegerRange where
  min : Int
  max : Int
deriving DecidableEq, Repr

namespace ZplTypeIntegerRange

/-- The constructor `new ZplTypeIntegerRange(min, max)`;
`none` models the thrown `TypeError` when `min > max`. -/
def make (min max : Int) : Option ZplTypeIntegerRange :=
  if min > max then none else some ⟨min, max⟩

/-- The error message `should be a number between {min} and {max}`. -/
def errMsg (r : ZplTypeIntegerRange) : List Char :=
  "should be a number between ".data ++ (toString r.min).data
    ++ " and ".data ++ (toString r.max).data

/-- `validate(value)`: error unless `!(isNaN(value) || value < min || value > max)`,
with JavaScript numeric coercion for `isNaN` and the comparisons. -/
def validate (r : ZplTypeIntegerRange) (value : JSValue) : Option (List Char) :=
  match jsToNumber value with
  | none   => some r.errMsg
  | some n => if n < r.min ∨ n > r.max then some r.errMsg else none

end ZplTypeIntegerRange

/-- `ZplParameterTypeIntegerRange` from src/src/commands (param-types). -/
structure ZplParameterTypeIntegerRange where
  min : Int
  max : Int
deriving DecidableEq, Repr

namespace ZplParameterTypeIntegerRange

/-- The constructor; `none` models the thrown `TypeError` when `min > max`. -/
def make (min max : Int) : Option ZplParameterTypeIntegerRange :=
  if min > max then none else some ⟨min, max⟩

/-- `validate(value)`: `should be a number` when the coercion is `NaN`,
then the two range checks in order, else no error (`undefined`). -/
def validate (r : ZplParameterTypeIntegerRange) (value : JSValue) : Option (List Char) :=
  match jsToNumber value with
  | none   => some "should be a number".data
  | some n =>
    if n < r.min then some ("should be greater than ".data ++ (toString r.min).data)
    else if n > r.max then some ("should be less than ".data ++ (toString r.max).data)
    else none

end ZplParameterTypeIntegerRange

/-- C6: for every integer-range parameter type constructed with `min ≤ max`,
`validate v` is error-free iff `v` is numeric (its JavaScript numeric
coercion is not `NaN`) and the coerced value lies in `[min, max]`; and
construction with `min > max` always fails (throws), in both the
`ZplTypeIntegerRange` and the `ZplParameterTypeIntegerRange` implementation. -/
theorem integer_range_validate_spec :
    (∀ mn mx : Int, mn > mx →
        ZplTypeIntegerRange.make mn mx = none
      ∧ ZplParameterTypeIntegerRange.make mn mx = none)
  ∧ (∀ mn mx : Int, mn ≤ mx → ∀ v : JSValue,
      (ZplTypeIntegerRange.validate ⟨mn, mx⟩ v = none ↔
        ∃ n, jsToNumber v = some n ∧ mn ≤ n ∧ n ≤ mx)
    ∧ (ZplParameterTypeIntegerRange.validate ⟨mn, mx⟩ v = none ↔
        ∃ n, jsToNumber v = some n ∧ mn ≤ n ∧ n ≤ mx)) := by
  constructor
  · intro mn mx h
    constructor
    · simp [ZplTypeIntegerRange.make, h]
    · simp [ZplParameterTypeIntegerRange.make, h]
  · intro mn mx _ v
    constructor
    · unfold ZplTypeIntegerRange.validate
      cases hjs : jsToNumber v with
      | none => simp
      | some n =>
        simp only [Option.some.injEq]
        constructor
        · intro h
          refine ⟨n, rfl, ?_, ?_⟩ <;>
            · by_contra hc
              simp [show n < mn ∨ n > mx by omega] at h
        · rintro ⟨m, hm, h1, h2⟩
          obtain rfl : n = m := hm
          simp [show ¬(n < mn ∨ n > mx) by omega]
    · unfold ZplParameterTypeIntegerRange.validate
      cases hjs : jsToNumber v with
      | none => simp
      | some n =>
        simp only [Option.some.injEq]
        constructor
        · intro h
          refine ⟨n, rfl, ?_, ?_⟩ <;>
            · by_contra hc
              first
              | simp [show n < mn by omega] at h
              | simp [show ¬ n < mn by omega, show n > mx by omega] at h
        · rintro ⟨m, hm, h1, h2⟩
          obtain rfl : n = m := hm
          simp [show ¬ n < mn by omega, show ¬ n > mx by omega]

/-- Witness for C6 at the concrete range [3, 5] (as in the repo's own
test file) and at the failing construction (2, 1). -/
theorem integer_range_validate_spec_witness :
    (ZplTypeIntegerRange.make 2 1 = none
      ∧ ZplParameterTypeIntegerRange.make 2 1 = none)
  ∧ ((ZplTypeIntegerRange.validate ⟨3, 5⟩ (.num 4) = none ↔
        ∃ n, jsToNumber (.num 4) = some n ∧ 3 ≤ n ∧ n ≤ 5)
    ∧ (ZplParameterTypeIntegerRange.validate ⟨3, 5⟩ (.num 4) = none ↔
        ∃ n, jsToNumber (.num 4) = some n ∧ 3 ≤ n ∧ n ≤ 5)) :=
  ⟨integer_range_validate_spec.1 2 1 (by decide),
   integer_range_validate_spec.2 3 5 (by decide) (.num 4)⟩

/-- String form of a character-code buffer, `String.fromCharCode(...array)`
(`uint8ArrayToString` in src utils). -/
def uint8ArrayToString (bs : List Nat) : List Char :=
  bs.map (fun b => Char.ofNat b)

/-- JavaScript string coercion of a value (`value.toString()` or
string concatenation): integers print in decimal, booleans as
`true`/`false`, a `Uint8Array` as its comma-joined decimal entries. -/
def jsToString : JSValue → List Char
  | .num n    => (toString n).data
  | .str s    => s
  | .bool b   => if b then "true".data else "false".data
  | .bytes bs => (String.intercalate "," (bs.map toString)).data

/-- One scan of `command.split(RE)` where
`RE = new RegExp("(" + paramKeys.join("|") + ")")`
(the `ZplCommandTemplate` constructor): the string is scanned left to
right; at each position the alternatives (parameter keys) are tried in
declaration order, and the first that matches is captured as a
separator, so the output alternates unmatched text and captured keys.
The fuel argument only forces termination; `splitOnKeys` below passes
enough fuel for every scan over nonempty keys. -/
def splitOnKeysAux (keys : List (List Char)) : Nat → List Char → List Char → List (List Char)
  | 0, acc, s => [acc.reverse ++ s]
  | _ + 1, acc, [] => [acc.reverse]
  | fuel + 1, acc, c :: rest =>
    match keys.find? (fun k => k.isPrefixOf (c :: rest)) with
    | some k => acc.reverse :: k :: splitOnKeysAux keys fuel [] ((c :: rest).drop k.length)
    | none   => splitOnKeysAux keys fuel (c :: acc) rest

/-- `command.split(RE)` with the capturing alternation of the
parameter keys, as performed once in the `ZplCommandTemplate`
constructor. -/
def splitOnKeys (keys : List (List Char)) (s : List Char) : List (List Char) :=
  splitOnKeysAux keys (s.length + 1) [] s

/-- The part of a template parameter schema entry that rendering
inspects: only `instanceof ZplParameterTypeBooleanValue` (with its two
tokens) changes the output; every other declared type renders through
the generic string coercion. -/
inductive TemplateParamType where
  | boolVal (t f : List Char)
  | other
deriving DecidableEq, Repr

/-- `ZplCommandTemplate` from src/src/commands/command-template.ts:
the literal pattern string and the optional parameter schema (keys in
declaration order). -/
structure ZplCommandTemplate where
  command : List Char
  schema  : Option (List (List Char × TemplateParamType))

/-- The `_commandSchema` field computed by the constructor:
`[command]` when no schema is given, otherwise the capturing split of
the pattern on the parameter keys. -/
def ZplCommandTemplate.commandSchema (t : ZplCommandTemplate) : List (List Char) :=
  match t.schema with
  | none => [t.command]
  | some s => splitOnKeys (s.map Prod.fst) t.command

/-- `params[key]` lookup on the parameter bag. -/
def lookupParam (params : List (List Char × JSValue)) (key : List Char) : Option JSValue :=
  (params.find? (fun p => p.1 == key)).map Prod.snd

/-- `ZplCommandTemplate.getCommandString(params)`: walk `_commandSchema`;
even indices emit the literal text, odd indices emit the parameter
value (`params[key] ?? ''`), with `Uint8Array` values decoded by
character code and booleans rendered through a boolean schema's
configured tokens. -/
def ZplCommandTemplate.getCommandString (t : ZplCommandTemplate)
    (params : List (List Char × JSValue)) : List Char :=
  (t.commandSchema.enum.map (fun seg =>
    if seg.1 % 2 = 1 then
      let key := seg.2
      let schemaTy : Option TemplateParamType :=
        match t.schema with
        | none => none
        | some s => (s.find? (fun p => p.1 == key)).map Prod.snd
      match lookupParam params key with
      | none => []
      | some (.bytes bs) => uint8ArrayToString bs
      | some (.bool b) =>
        match schemaTy with
        | some (.boolVal tk fk) => if b then tk else fk
        | _ => jsToString (.bool b)
      | some v => jsToString v
    else seg.2)).flatten

/-- Segment lists of the shape produced by the capturing split:
a literal, then alternately a captured parameter key and a literal. -/
inductive AltSegs (keys : List (List Char)) : List (List Char) → Prop where
  | single (x : List Char) : AltSegs keys [x]
  | cons (x k : List Char) (l : List (List Char)) :
      k ∈ keys → AltSegs keys l → AltSegs keys (x :: k :: l)

theorem altSegs_splitOnKeysAux (keys : List (List Char)) :
    ∀ (fuel : Nat) (acc s : List Char), AltSegs keys (splitOnKeysAux keys fuel acc s) := by
  intro fuel
  induction fuel with
  | zero => intro acc s; exact .single _
  | succ n ih =>
    intro acc s
    cases s with
    | nil => exact .single _
    | cons c rest =>
      rcases hf : keys.find? (fun k => k.isPrefixOf (c :: rest)) with _ | k
      · simpa [splitOnKeysAux, hf] using ih (c :: acc) rest
      · simpa [splitOnKeysAux, hf] using
          AltSegs.cons acc.reverse k _ (List.mem_of_find?_eq_some hf) (ih [] _)

theorem AltSegs.length_odd {keys : List (List Char)} {l : List (List Char)}
    (h : AltSegs keys l) : l.length % 2 = 1 := by
  induction h with
  | single x => rfl
  | cons x k l hk hl ih => simp only [List.length_cons]; omega

theorem AltSegs.odd_index_mem {keys : List (List Char)} {l : List (List Char)}
    (h : AltSegs keys l) : ∀ i x, i % 2 = 1 → l[i]? = some x → x ∈ keys := by
  induction h with
  | single y =>
    intro i x hi hg
    match i with
    | 0 => simp at hi
    | n + 1 => simp at hg
  | cons y k l hk hl ih =>
    intro i x hi hg
    match i with
    | 0 => simp at hi
    | 1 =>
      simp only [List.getElem?_cons_succ, List.getElem?_cons_zero, Option.some.injEq] at hg
      exact hg ▸ hk
    | n + 2 =>
      refine ih n x ?_ ?_
      · omega
      · simpa using hg

/-- C5: for every command template constructed from a pattern string
and a parameter schema (with its nonempty list of nonempty parameter
keys), the internal segment list `_commandSchema` has odd length and
its odd indices hold parameter keys (even indices are the literal
text between them); a template constructed with no declared
parameters keeps `[command]` as its segment list and renders its
literal pattern string unchanged. -/
theorem template_segments_spec :
    (∀ (cmd : List Char) (s : List (List Char × TemplateParamType)),
      s.map Prod.fst ≠ [] → [] ∉ s.map Prod.fst →
      (ZplCommandTemplate.mk cmd (some s)).commandSchema.length % 2 = 1
      ∧ ∀ i x, i % 2 = 1 →
          (ZplCommandTemplate.mk cmd (some s)).commandSchema[i]? = some x →
          x ∈ s.map Prod.fst)
  ∧ (∀ cmd : List Char,
      (ZplCommandTemplate.mk cmd none).commandSchema = [cmd]
      ∧ ∀ params, (ZplCommandTemplate.mk cmd none).getCommandString params = cmd) := by
  constructor
  · intro cmd s _ _
    have h := altSegs_splitOnKeysAux (s.map Prod.fst) (cmd.length + 1) [] cmd
    exact ⟨h.length_odd, h.odd_index_mem⟩
  · intro cmd
    refine ⟨rfl, fun params => ?_⟩
    simp [ZplCommandTemplate.getCommandString, ZplCommandTemplate.commandSchema, List.enum]

/-- Witness for C5 at the `ZplScalableFont` template
(`'^Afo,h,w'` with parameter keys `f`, `o`, `h`, `w`). -/
theorem template_segments_spec_witness :
    ((ZplCommandTemplate.mk "^Afo,h,w".data
        (some [("f".data, .other), ("o".data, .other),
               ("h".data, .other), ("w".data, .other)])).commandSchema.length % 2 = 1
      ∧ ∀ i x, i % 2 = 1 →
          (ZplCommandTemplate.mk "^Afo,h,w".data
            (some [("f".data, .other), ("o".data, .other),
                   ("h".data, .other), ("w".data, .other)])).commandSchema[i]? = some x →
          x ∈ [("f".data, TemplateParamType.other), ("o".data, .other),
               ("h".data, .other), ("w".data, .other)].map Prod.fst) :=
  template_segments_spec.1 "^Afo,h,w".data
    [("f".data, .other), ("o".data, .other), ("h".data, .other), ("w".data, .other)]
    (by decide) (by decide)

/-- Whether a JavaScript value is falsy (`value || ''` replaces it by
the empty string): the number 0, the empty string and `false` are
falsy; every `Uint8Array` is an object and hence truthy. -/
def jsFalsy : JSValue → Bool
  | .num n    => n = 0
  | .str s    => s.isEmpty
  | .bool b   => !b
  | .bytes _  => false

/-- One parameter entry of a `ZplCommandSchema` (src/src/zebra-zpl-schema.ts):
its key, optionality and per-field delimiter (`none` models an
undefined/null delimiter, which serializes as `,`).  The declared type
is not part of this record because `apply` never reads it. -/
structure ZplParameterOptions where
  key       : List Char
  optional  : Bool
  delimiter : Option (List Char)

/-- `ZplCommandSchema` from src/src/zebra-zpl-schema.ts: the command
literal and its ordered positional parameter schema. -/
structure ZplCommandSchema where
  command : List Char
  schema  : List ZplParameterOptions

/-- `parameterValues[index] || ''` followed by string concatenation:
a missing (`undefined`) or falsy value contributes nothing, any other
value contributes its string coercion. -/
def renderedValue (vals : List (Option JSValue)) (index : Nat) : List Char :=
  match vals[index]? with
  | some (some v) => if jsFalsy v then [] else jsToString v
  | _ => []

/-- The delimiter appended after the parameter at `index`: empty for
the last parameter, else the entry's delimiter defaulting to `,`. -/
def delimiterAt (p : ZplParameterOptions) (index lastIndex : Nat) : List Char :=
  if index = lastIndex then [] else p.delimiter.getD [',']

/-- The reduction step of `ZplCommandSchema.apply`, written as a
recursion over the schema entries carrying the running index
(`assembledCommand + value + delimiter` per entry). -/
def applyAux (vals : List (Option JSValue)) :
    List ZplParameterOptions → Nat → Nat → List Char
  | [], _, _ => []
  | p :: ps, index, lastIndex =>
    renderedValue vals index ++ delimiterAt p index lastIndex
      ++ applyAux vals ps (index + 1) lastIndex

/-- `ZplCommandSchema.apply(...parameterValues)`: the command literal
followed by each parameter's rendered value and delimiter in schema
order. -/
def ZplCommandSchema.apply (s : ZplCommandSchema) (vals : List (Option JSValue)) : List Char :=
  s.command ++ applyAux vals s.schema 0 (s.schema.length - 1)

/-- Replacing one supplied value by `undefined`. -/
def ZplParamsErase (vals : List (Option JSValue)) (i : Nat) : List (Option JSValue) :=
  vals.set i none

theorem renderedValue_set_falsy (vals : List (Option JSValue)) (i : Nat) (v : JSValue)
    (hv : jsFalsy v = true) (j : Nat) :
    renderedValue (vals.set i (some v)) j = renderedValue (vals.set i none) j := by
  unfold renderedValue
  by_cases hij : i = j
  · subst hij
    by_cases hlen : i < vals.length
    · simp [List.getElem?_set_self, hlen, hv]
    · have h1 : (vals.set i (some v))[i]? = none := by
        simp [List.getElem?_eq_none, Nat.le_of_not_lt hlen]
      have h2 : (vals.set i none)[i]? = none := by
        simp [List.getElem?_eq_none, Nat.le_of_not_lt hlen]
      simp [h1, h2]
  · simp [List.getElem?_set_ne hij]

theorem applyAux_set_falsy (vals : List (Option JSValue)) (i : Nat) (v : JSValue)
    (hv : jsFalsy v = true) :
    ∀ (ps : List ZplParameterOptions) (index lastIndex : Nat),
      applyAux (vals.set i (some v)) ps index lastIndex
        = applyAux (vals.set i none) ps index lastIndex := by
  intro ps
  induction ps with
  | nil => intro index lastIndex; rfl
  | cons p ps ih =>
    intro index lastIndex
    simp only [applyAux, renderedValue_set_falsy vals i v hv index, ih]

/-- C10: in the schema-based rendering engine, a parameter whose
supplied value is falsy (the number 0, `false`, or the empty string)
renders identically to an absent (`undefined`) parameter: `apply`
emits the empty string followed by the entry's delimiter in both
cases.  In particular a numeric 0 never appears as `0` in the
rendered command. -/
theorem schema_apply_falsy_as_absent (s : ZplCommandSchema)
    (vals : List (Option JSValue)) (i : Nat) (v : JSValue) (hv : jsFalsy v = true) :
    s.apply (vals.set i (some v)) = s.apply (ZplParamsErase vals i) := by
  unfold ZplCommandSchema.apply ZplParamsErase
  rw [applyAux_set_falsy vals i v hv]

/-- Witness for C10: the `^FO` schema with a supplied x value of 0
renders as if x were absent. -/
theorem schema_apply_falsy_as_absent_witness :
    ZplCommandSchema.apply
        ⟨"^FO".data, [⟨"x".data, false, none⟩, ⟨"y".data, false, none⟩, ⟨"z".data, false, none⟩]⟩
        ([some (.num 0), some (.num 20), some (.num 0)].set 0 (some (.num 0)))
      = ZplCommandSchema.apply
        ⟨"^FO".data, [⟨"x".data, false, none⟩, ⟨"y".data, false, none⟩, ⟨"z".data, false, none⟩]⟩
        (ZplParamsErase [some (.num 0), some (.num 20), some (.num 0)] 0) :=
  schema_apply_falsy_as_absent _ [some (.num 0), some (.num 20), some (.num 0)] 0 (.num 0)
    (by decide)

/-- `ZplStartFormat` (`^XA`), a schema-engine command with no parameters. -/
def ZplStartFormat : ZplCommandSchema := ⟨"^XA".data, []⟩

/-- `ZplEndFormat` (`^XZ`), a schema-engine command with no parameters. -/
def ZplEndFormat : ZplCommandSchema := ⟨"^XZ".data, []⟩

/-- The string-accumulating `ZplLabel` variant
(src/src/zebra-zpl-label.ts, first class): drawing operations push
rendered command strings onto `commands`. -/
structure ZplLabelV1 where
  commands : List (List Char)

/-- `ZplLabel.toString()` of the string-accumulating variant:
`[ZplStartFormat.apply(), ...commands, ZplEndFormat.apply()].join('\n')`. -/
def ZplLabelV1.toString (lab : ZplLabelV1) : List Char :=
  List.intercalate "\n".data
    ([ZplStartFormat.apply []] ++ lab.commands ++ [ZplEndFormat.apply []])

/-- A `ZplLabel` of the first variant on which zero drawing operations
have been performed. -/
def ZplLabelV1.empty : ZplLabelV1 := ⟨[]⟩

/-- The `^XA` command of the template engine (no parameter schema). -/
def ZplStartFormatTemplate : ZplCommandTemplate := ⟨"^XA".data, none⟩

/-- The `^XZ` command of the template engine (no parameter schema). -/
def ZplEndFormatTemplate : ZplCommandTemplate := ⟨"^XZ".data, none⟩

/-- `ZplCommandSet` (src/src/commands/command-set.ts): the ordered
list of (template, parameters) pairs appended by `runCommand`. -/
structure ZplCommandSet where
  zpl : List (ZplCommandTemplate × List (List Char × JSValue))

/-- `ZplCommandSet.getCommandString()`: each member's rendering,
joined with the empty separator in append order. -/
def ZplCommandSet.getCommandString (cs : ZplCommandSet) : List Char :=
  (cs.zpl.map (fun p => p.1.getCommandString p.2)).flatten

/-- The command-set `ZplLabel` variant: its constructor immediately
runs `ZplStartFormat`, and drawing operations append to the set. -/
structure ZplLabelV2 where
  commandSet : ZplCommandSet

/-- A freshly constructed command-set `ZplLabel` (zero drawing
operations): the set holds only the start-of-format command. -/
def ZplLabelV2.new : ZplLabelV2 := ⟨⟨[(ZplStartFormatTemplate, [])]⟩⟩

/-- `ZplLabel.getCommandString()` of the command-set variant: copy the
set, run `ZplEndFormat`, and render. -/
def ZplLabelV2.getCommandString (lab : ZplLabelV2) : List Char :=
  (ZplCommandSet.mk (lab.commandSet.zpl ++ [(ZplEndFormatTemplate, [])])).getCommandString

/-- C4 counterexample: the claim says a label with zero drawing
operations renders exactly `^XA^XZ`, but the string-accumulating
variant's `toString` (cited by the claim) joins the start and end
markers with a newline, rendering `^XA\n^XZ`. -/
theorem label_empty_toString_counterexample :
    ZplLabelV1.toString ZplLabelV1.empty ≠ "^XA^XZ".data
  ∧ ZplLabelV1.toString ZplLabelV1.empty = ("^XA".data ++ ['\n'] ++ "^XZ".data) := by
  constructor
  · decide
  · decide

/-- C4 amended: a label with zero drawing operations renders exactly
`^XA^XZ` through the command-set variant's `getCommandString` (as the
repo's own test asserts), while the string-accumulating variant's
`toString` renders `^XA`, a newline, then `^XZ`. -/
theorem label_empty_renders_spec :
    ZplLabelV2.getCommandString ZplLabelV2.new = "^XA^XZ".data
  ∧ ZplLabelV1.toString ZplLabelV1.empty = ("^XA".data ++ ['\n'] ++ "^XZ".data) := by
  constructor
  · decide
  · decide

/-- QR code data input mode (src/src/utils/utils-qr-code.ts). -/
inductive QRDataInputMode where
  | N | A | B | K
deriving DecidableEq, Repr

/-- QR code error correction level (src/src/utils/utils-qr-code.ts). -/
inductive QRErrorCorrectionLevel where
  | L | M | Q | H
deriving DecidableEq, Repr

/-- The nested capacity table `QRCodeCapacities[mode][level]`: data
capacity of QR versions 1 through 40 (index 0 is version 1). -/
def QRCodeCapacities : QRDataInputMode → QRErrorCorrectionLevel → List Nat
  | .N, .L => [41,77,127,187,255,322,370,461,552,652,772,883,1022,1101,1250,1408,1548,1725,1903,2061,2232,2409,2620,2812,3057,3283,3517,3669,3909,4158,4417,4686,4965,5253,5529,5836,6153,6479,6743,7089]
  | .N, .M => [34,63,101,149,202,255,293,365,432,513,604,691,796,871,991,1082,1212,1346,1500,1600,1708,1872,2059,2188,2395,2544,2701,2857,3035,3289,3486,3693,3909,4134,4343,4588,4775,5039,5313,5596]
  | .N, .Q => [27,48,77,111,144,178,207,259,312,364,427,489,580,621,703,775,876,948,1063,1159,1224,1358,1468,1588,1718,1804,1933,2085,2181,2358,2473,2670,2805,2949,3081,3244,3417,3599,3791,3993]
  | .N, .H => [17,34,58,82,106,139,154,202,235,288,331,374,427,468,530,602,674,746,813,919,969,1056,1108,1228,1286,1425,1501,1581,1677,1782,1897,2022,2157,2301,2361,2524,2625,2735,2927,3057]
  | .A, .L => [25,47,77,114,154,195,224,279,335,395,468,535,619,667,758,854,938,1046,1153,1249,1352,1460,1588,1704,1853,1990,2132,2223,2369,2520,2677,2840,3009,3183,3351,3537,3729,3927,4087,4296]
  | .A, .M => [20,38,61,90,122,154,178,221,262,311,366,419,483,528,600,656,734,816,909,970,1035,1134,1248,1326,1451,1542,1637,1732,1839,1994,2113,2238,2369,2506,2632,2780,2894,3054,3220,3391]
  | .A, .Q => [16,29,47,67,87,108,125,157,189,221,259,296,352,376,426,470,531,574,644,702,742,823,890,963,1041,1094,1172,1263,1322,1429,1499,1618,1700,1787,1867,1966,2071,2181,2298,2420]
  | .A, .H => [10,20,35,50,64,84,93,122,143,174,200,227,259,283,321,365,408,452,493,557,587,640,672,744,779,864,910,958,1016,1080,1150,1226,1307,1394,1431,1530,1591,1658,1774,1852]
  | .B, .L => [17,32,53,78,106,134,154,192,230,271,321,367,425,458,520,586,644,718,792,858,929,1003,1091,1171,1273,1367,1465,1528,1628,1732,1840,1952,2068,2188,2303,2431,2563,2699,2809,2953]
  | .B, .M => [14,26,42,62,84,106,122,152,180,213,251,287,331,362,412,450,504,560,624,666,711,779,857,911,997,1059,1125,1190,1264,1370,1452,1538,1628,1722,1809,1911,1989,2099,2213,2331]
  | .B, .Q => [11,20,32,46,60,74,86,108,130,151,177,203,241,258,292,322,364,394,442,482,509,565,611,661,715,751,805,868,908,982,1030,1112,1168,1228,1283,1351,1423,1499,1579,1663]
  | .B, .H => [7,14,24,34,44,58,64,84,98,119,137,155,177,194,220,250,280,310,338,382,403,439,461,511,535,593,625,658,698,742,790,842,898,958,983,1051,1093,1139,1219,1273]
  | .K, .L => [10,20,32,48,65,82,95,118,141,167,198,226,262,282,320,361,397,442,488,528,572,618,672,721,784,842,902,940,1002,1066,1132,1201,1273,1347,1417,1496,1577,1661,1729,1817]
  | .K, .M => [8,16,26,38,52,65,75,93,111,131,155,177,204,223,254,277,310,345,384,410,438,480,528,561,614,652,692,732,778,843,894,947,1002,1060,1113,1176,1224,1292,1362,1435]
  | .K, .Q => [7,12,20,28,37,45,53,66,80,93,109,125,149,159,180,198,224,243,272,297,314,348,376,407,440,462,496,534,559,604,634,684,719,756,790,832,876,923,972,1024]
  | .K, .H => [4,8,15,21,27,36,39,52,60,74,85,96,109,120,136,154,173,191,208,235,248,270,284,315,330,365,385,405,430,457,486,518,553,590,605,647,673,701,750,784]

/-- `getQRCodeVersion(dataInputMode, errorCorrectionLevel, size)`:
`versions.find(value => size <= value)` and
`versionValue ? versions.indexOf(versionValue) + 1 : 40` (a falsy
found value, i.e. the absence of any fitting version, yields 40). -/
def getQRCodeVersion (dataInputMode : QRDataInputMode)
    (errorCorrectionLevel : QRErrorCorrectionLevel) (size : Nat) : Nat :=
  match (QRCodeCapacities dataInputMode errorCorrectionLevel).find? (fun value => size ≤ value) with
  | some versionValue =>
    if versionValue = 0 then 40
    else (QRCodeCapacities dataInputMode errorCorrectionLevel).indexOf versionValue + 1
  | none => 40

/-- The character class of the regular expression
`/^[0-9A-Z $%*+-./:]+$/` in `getQRCodeDataInputMode`: inside the
class, `+-.` is the character range from `+` (43) to `.` (46). -/
def isQRAlnumRegexChar (c : Char) : Bool :=
  isDigitChar c || ('A' ≤ c && c ≤ 'Z') || c == ' ' || c == '$' || c == '%' || c == '*'
    || ('+' ≤ c && c ≤ '.') || c == '/' || c == ':'

/-- The QR alphanumeric charset as the specification words it (the 45
characters of the standard QR alphanumeric mode): digits, uppercase
letters, and space, dollar, percent, asterisk, plus, minus, period,
slash, colon.  Declared separately from `isQRAlnumRegexChar` so the
two can be compared. -/
def isQRAlphanumericChar (c : Char) : Bool :=
  isDigitChar c || ('A' ≤ c && c ≤ 'Z') || c == ' ' || c == '$' || c == '%' || c == '*'
    || c == '+' || c == '-' || c == '.' || c == '/' || c == ':'

/-- `getQRCodeDataInputMode(text)`: numeric-only text is mode N,
text matching the alphanumeric class is mode A, everything else mode
B; the size is the count of class characters (via `split`) for N/A
and the text length for B. -/
def getQRCodeDataInputMode (text : List Char) : QRDataInputMode × Nat :=
  if !text.isEmpty && text.all isDigitChar then
    (.N, text.countP isDigitChar)
  else if !text.isEmpty && text.all isQRAlnumRegexChar then
    (.A, text.countP isQRAlnumRegexChar)
  else
    (.B, text.length)

theorem find?_first {p : Nat → Bool} :
    ∀ (l : List Nat) (a : Nat), l.find? p = some a →
      p a = true ∧ ∃ i, l[i]? = some a
        ∧ (∀ j, j < i → ∀ b, l[j]? = some b → p b = false)
        ∧ l.indexOf a = i := by
  intro l
  induction l with
  | nil => intro a h; simp at h
  | cons x xs ih =>
    intro a h
    by_cases hx : p x = true
    · rw [List.find?_cons_of_pos _ hx, Option.some.injEq] at h
      subst h
      refine ⟨hx, 0, by simp, fun j hj => absurd hj (Nat.not_lt_zero j), ?_⟩
      exact List.indexOf_cons_self _ _
    · have hx' : p x = false := by simpa using hx
      rw [List.find?_cons_of_neg _ (by simp [hx'])] at h
      obtain ⟨hpa, i, hget, hlt, hidx⟩ := ih a h
      have hax : x ≠ a := by
        intro he
        rw [← he] at hpa
        rw [hpa] at hx'
        simp at hx'
      refine ⟨hpa, i + 1, by simpa using hget, ?_, ?_⟩
      · intro j hj b hb
        cases j with
        | zero =>
          simp only [List.getElem?_cons_zero, Option.some.injEq] at hb
          exact hb ▸ hx'
        | succ j' =>
          exact hlt j' (by omega) b (by simpa using hb)
      · rw [List.indexOf_cons_ne _ hax, hidx]

/-- C9: for every data mode and error-correction level, when the
payload size exceeds the capacity of all 40 versions for that mode
and level, `getQRCodeVersion` returns 40 instead of reporting an
error — the oversized payload is silently mapped to the largest
version. -/
theorem qr_version_overflow_returns_40
    (m : QRDataInputMode) (l : QRErrorCorrectionLevel) (size : Nat)
    (h : ∀ c ∈ QRCodeCapacities m l, c < size) :
    getQRCodeVersion m l size = 40 := by
  unfold getQRCodeVersion
  have hn : (QRCodeCapacities m l).find? (fun value => size ≤ value) = none := by
    rw [List.find?_eq_none]
    intro x hx
    have := h x hx
    simp only [decide_eq_true_eq]
    omega
  simp only [hn]

/-- Witness for C9: byte mode at level H has maximum capacity 1273,
so a 1274-byte payload still gets version 40. -/
theorem qr_version_overflow_returns_40_witness :
    getQRCodeVersion QRDataInputMode.B QRErrorCorrectionLevel.H 1274 = 40 :=
  qr_version_overflow_returns_40 QRDataInputMode.B QRErrorCorrectionLevel.H 1274 (by decide)


set_option maxHeartbeats 1000000 in
theorem isQRAlnumRegexChar_eq_charset_or_comma (c : Char) :
    isQRAlnumRegexChar c = (isQRAlphanumericChar c || c == ',') := by
  have htn : ∀ d : Char, (c = d) ↔ c.toNat = d.toNat := fun d =>
    ⟨fun h => h ▸ rfl, fun h => Char.ext (UInt32.ext h)⟩
  rw [Bool.eq_iff_iff]
  simp only [isQRAlnumRegexChar, isQRAlphanumericChar, Bool.or_eq_true, Bool.and_eq_true,
    decide_eq_true_eq, beq_iff_eq]
  have hrange : ('+' ≤ c ∧ c ≤ '.') ↔ (c = '+' ∨ c = ',' ∨ c = '-' ∨ c = '.') := by
    rw [show ('+' ≤ c) ↔ 43 ≤ c.toNat from Iff.rfl,
        show (c ≤ '.') ↔ c.toNat ≤ 46 from Iff.rfl,
        htn '+', htn ',', htn '-', htn '.']
    show _ ↔ (c.toNat = 43 ∨ c.toNat = 44 ∨ c.toNat = 45 ∨ c.toNat = 46)
    omega
  rw [hrange]
  tauto

/-- C7 counterexample: the claim says every text that is neither
numeric-only nor restricted to the QR alphanumeric charset is
classified as mode B; the comma (admitted by the unescaped regex
range `+-.`) is such a text but is classified as mode A. -/
theorem qr_mode_counterexample :
    ¬ (∀ text : List Char,
        text.all isDigitChar = false →
        text.all isQRAlphanumericChar = false →
        (getQRCodeDataInputMode text).1 = QRDataInputMode.B) := by
  intro h
  exact absurd (h [','] (by decide) (by decide)) (by decide)

/-- C7 amended: the mode A class accepted by the code is the QR
alphanumeric charset extended with the comma (the regex range `+-.`);
numeric-only text is mode N, text within that extended class is mode
A, everything else mode B, each with its size; the selected QR
version is the minimum version whose capacity for the detected mode
and given level is at least the payload size; and for "123456" at
level Q the detected mode is N and the selected version's capacity
(27) is at least 6. -/
theorem qr_mode_and_version_spec :
    (∀ c : Char, isQRAlnumRegexChar c = (isQRAlphanumericChar c || c == ','))
  ∧ (∀ text : List Char, text ≠ [] → text.all isDigitChar = true →
      getQRCodeDataInputMode text = (QRDataInputMode.N, text.length))
  ∧ (∀ text : List Char, text ≠ [] → text.all isDigitChar = false →
      text.all isQRAlnumRegexChar = true →
      getQRCodeDataInputMode text = (QRDataInputMode.A, text.length))
  ∧ (∀ text : List Char,
      (!text.isEmpty && text.all isDigitChar) = false →
      (!text.isEmpty && text.all isQRAlnumRegexChar) = false →
      getQRCodeDataInputMode text = (QRDataInputMode.B, text.length))
  ∧ (∀ (m : QRDataInputMode) (l : QRErrorCorrectionLevel) (size : Nat), 0 < size →
      (∃ c ∈ QRCodeCapacities m l, size ≤ c) →
      ∃ c, (QRCodeCapacities m l)[getQRCodeVersion m l size - 1]? = some c ∧ size ≤ c
        ∧ ∀ j, j < getQRCodeVersion m l size - 1 →
            ∀ cj, (QRCodeCapacities m l)[j]? = some cj → cj < size)
  ∧ (getQRCodeDataInputMode "123456".data = (QRDataInputMode.N, 6)
      ∧ getQRCodeVersion QRDataInputMode.N QRErrorCorrectionLevel.Q 6 = 1
      ∧ (QRCodeCapacities QRDataInputMode.N QRErrorCorrectionLevel.Q)[0]? = some 27
      ∧ 6 ≤ 27) := by
  refine ⟨isQRAlnumRegexChar_eq_charset_or_comma, ?_, ?_, ?_, ?_, by decide⟩
  · intro text hne hall
    have hie : text.isEmpty = false := by
      cases text with
      | nil => exact absurd rfl hne
      | cons a t => rfl
    have hcnt : text.countP isDigitChar = text.length :=
      List.countP_eq_length.2 (List.all_eq_true.1 hall)
    simp [getQRCodeDataInputMode, hie, hall, hcnt]
  · intro text hne hd hall
    have hie : text.isEmpty = false := by
      cases text with
      | nil => exact absurd rfl hne
      | cons a t => rfl
    have hcnt : text.countP isQRAlnumRegexChar = text.length :=
      List.countP_eq_length.2 (List.all_eq_true.1 hall)
    simp [getQRCodeDataInputMode, hie, hd, hall, hcnt]
  · intro text h1 h2
    simp only [getQRCodeDataInputMode, h1, h2]
    rfl
  · intro m l size hpos hex
    obtain ⟨c, hc, hsz⟩ := hex
    cases hf : (QRCodeCapacities m l).find? (fun v => size ≤ v) with
    | none =>
      rw [List.find?_eq_none] at hf
      exact absurd (by simpa using hsz) (by simpa using hf c hc)
    | some a =>
      obtain ⟨hpa, i, hget, hlt, hidx⟩ := find?_first _ a hf
      have ha : size ≤ a := by simpa using hpa
      have ha0 : ¬ a = 0 := by omega
      have hv : getQRCodeVersion m l size = i + 1 := by
        simp [getQRCodeVersion, hf, ha0, hidx]
      refine ⟨a, ?_, ha, ?_⟩
      · rw [hv]
        simpa using hget
      · intro j hj cj hcj
        rw [hv, Nat.add_sub_cancel] at hj
        have hb := hlt j hj cj hcj
        simp only [decide_eq_false_iff_not, Nat.not_le] at hb
        exact hb

/-- Witness for C7 (amended) at concrete inputs: the N branch at
"123", and the minimal-version property at mode N, level Q, size 6. -/
theorem qr_mode_and_version_spec_witness :
    getQRCodeDataInputMode "123".data = (QRDataInputMode.N, 3)
  ∧ (∃ c, (QRCodeCapacities QRDataInputMode.N QRErrorCorrectionLevel.Q)[getQRCodeVersion QRDataInputMode.N QRErrorCorrectionLevel.Q 6 - 1]? = some c
      ∧ 6 ≤ c
      ∧ ∀ j, j < getQRCodeVersion QRDataInputMode.N QRErrorCorrectionLevel.Q 6 - 1 →
          ∀ cj, (QRCodeCapacities QRDataInputMode.N QRErrorCorrectionLevel.Q)[j]? = some cj →
            cj < 6) :=
  ⟨qr_mode_and_version_spec.2.1 "123".data (by decide) (by decide),
   qr_mode_and_version_spec.2.2.2.2.1 QRDataInputMode.N QRErrorCorrectionLevel.Q 6
     (by decide) ⟨27, by decide, by decide⟩⟩

/-- The label builder's coordinate unit (`options.unit`). -/
inductive LabelUnit where
  | inches | px | dots
deriving DecidableEq, Repr

/-- The label builder's line/box color (`options.color`), mapped
through `ColorFromHumanReadable`. -/
inductive LabelColor where
  | black | white
deriving DecidableEq, Repr

/-- `inchesToDots` from src/src/utils/utils-units.ts. -/
def inchesToDots (inches dpi : ℚ) : ℚ := inches * dpi

/-- `CSSPixelsToDots` from src/src/utils/utils-units.ts. -/
def CSSPixelsToDots (pixels dpi : ℚ) : ℚ := pixels * dpi / 96

/-- `ZplLabel._toDots(x)`: `this.dpi || 300` (an unset or zero dpi
falls back to 300), then the per-unit conversion, with raw dots (or
an unset unit) passed through. -/
def labelToDots (unit : Option LabelUnit) (dpi : Option ℚ) (x : ℚ) : ℚ :=
  let d : ℚ :=
    match dpi with
    | none => 300
    | some v => if v = 0 then 300 else v
  match unit with
  | some .inches => inchesToDots x d
  | some .px     => CSSPixelsToDots x d
  | some .dots   => x
  | none         => x

/-- The commands `ZplLabel.line` can append, as structured records
(field origin, optional reverse print, one graphic primitive, field
separator). -/
inductive LabelCmd where
  | fieldOrigin (x y z : ℚ)
  | fieldReversePrint
  | graphicBox (w h t : ℚ) (c : Char) (r : ℚ)
  | graphicDiagonalLine (w h t : ℚ) (c : Char) (o : Char)
  | fieldSeparator
deriving DecidableEq, Repr

/-- `ColorFromHumanReadable[options.color] || 'B'`. -/
def resolveLineColor : Option LabelColor → Char
  | some .black => 'B'
  | some .white => 'W'
  | none        => 'B'

/-- `options.thickness || 1` (zero is falsy and also defaults to 1). -/
def resolveThickness : Option ℚ → ℚ
  | none => 1
  | some v => if v = 0 then 1 else v

namespace ZplLabel

/-- `ZplLabel.line(x1, y1, x2, y2, options)`: field origin at the
component-wise minimum, optional reverse print, then a `^GB` box for
perfectly horizontal or vertical segments and a `^GD` diagonal
(direction `L` when both deltas are negative or both positive, else
`R`) otherwise, and a field separator. -/
def line (unit : Option LabelUnit) (dpi : Option ℚ) (x1 y1 x2 y2 : ℚ)
    (color : Option LabelColor) (invertColor : Bool) (thickness : Option ℚ) : List LabelCmd :=
  [LabelCmd.fieldOrigin (labelToDots unit dpi (min x1 x2)) (labelToDots unit dpi (min y1 y2)) 0]
  ++ (if invertColor then [LabelCmd.fieldReversePrint] else [])
  ++ (if x1 = x2 ∨ y1 = y2 then
        [LabelCmd.graphicBox (labelToDots unit dpi (x2 - x1)) (labelToDots unit dpi (y2 - y1))
          (resolveThickness thickness) (resolveLineColor color) 0]
      else
        [LabelCmd.graphicDiagonalLine (labelToDots unit dpi |x2 - x1|) (labelToDots unit dpi |y2 - y1|)
          (resolveThickness thickness) (resolveLineColor color)
          (if (x2 - x1 < 0 ∧ y2 - y1 < 0) ∨ (x2 - x1 > 0 ∧ y2 - y1 > 0) then 'L' else 'R')])
  ++ [LabelCmd.fieldSeparator]

end ZplLabel

/-- Whether a label command is a graphic primitive (box or diagonal). -/
def isGraphicCmd : LabelCmd → Bool
  | .graphicBox _ _ _ _ _ => true
  | .graphicDiagonalLine _ _ _ _ _ => true
  | _ => false

/-- The graphic primitives among a command list. -/
def graphicPrimitives (cmds : List LabelCmd) : List LabelCmd :=
  cmds.filter isGraphicCmd

/-- C8: a line drawn through the label builder renders exactly one
graphic primitive: a box (`^GB`) when the segment is perfectly
horizontal or vertical, else a diagonal (`^GD`) whose direction flag
is `L` exactly when the x-delta and y-delta have the same sign (their
product is positive), and `R` otherwise. -/
theorem line_geometry_spec (unit : Option LabelUnit) (dpi : Option ℚ) (x1 y1 x2 y2 : ℚ)
    (color : Option LabelColor) (invertColor : Bool) (thickness : Option ℚ) :
    (x1 = x2 ∨ y1 = y2 →
      graphicPrimitives (ZplLabel.line unit dpi x1 y1 x2 y2 color invertColor thickness) =
        [LabelCmd.graphicBox (labelToDots unit dpi (x2 - x1)) (labelToDots unit dpi (y2 - y1))
          (resolveThickness thickness) (resolveLineColor color) 0])
  ∧ (x1 ≠ x2 → y1 ≠ y2 →
      graphicPrimitives (ZplLabel.line unit dpi x1 y1 x2 y2 color invertColor thickness) =
        [LabelCmd.graphicDiagonalLine (labelToDots unit dpi |x2 - x1|) (labelToDots unit dpi |y2 - y1|)
          (resolveThickness thickness) (resolveLineColor color)
          (if 0 < (x2 - x1) * (y2 - y1) then 'L' else 'R')]) := by
  constructor
  · intro h
    unfold ZplLabel.line graphicPrimitives
    rw [if_pos h]
    cases invertColor <;> simp [isGraphicCmd]
  · intro hx hy
    have h : ¬ (x1 = x2 ∨ y1 = y2) := by tauto
    have hsign : ((x2 - x1 < 0 ∧ y2 - y1 < 0) ∨ (x2 - x1 > 0 ∧ y2 - y1 > 0)) ↔
        (0 < (x2 - x1) * (y2 - y1)) := by
      rw [mul_pos_iff]
      tauto
    unfold ZplLabel.line graphicPrimitives
    rw [if_neg h, if_congr hsign rfl rfl]
    cases invertColor <;> simp [isGraphicCmd]

/-- Witness for C8: the diagonal (1,1)-(3,5) gets direction `L`, and
the horizontal (1,1)-(3,1) renders as a box. -/
theorem line_geometry_spec_witness :
    graphicPrimitives (ZplLabel.line none none 1 1 3 5 none false none) =
      [LabelCmd.graphicDiagonalLine 2 4 1 'B' 'L']
  ∧ graphicPrimitives (ZplLabel.line none none 1 1 3 1 none false none) =
      [LabelCmd.graphicBox 2 0 1 'B' 0] := by
  constructor
  · have h := (line_geometry_spec none none 1 1 3 5 none false none).2
      (by norm_num) (by norm_num)
    rw [h]
    norm_num [labelToDots, resolveThickness, resolveLineColor, abs_of_pos]
  · have h := (line_geometry_spec none none 1 1 3 1 none false none).1 (Or.inr rfl)
    rw [h]
    norm_num [labelToDots, resolveThickness, resolveLineColor]

/-- The two asynchronous completion events `putData` waits for: the
data-connection socket's `close` event (the callback pushed on
`_responseQueue`), and the return of `await _send('STOR ...')`, which
happens at the STOR command's terminal (non-1xx) FTP reply. -/
inductive PutDataEvent where
  | dataSocketClose
  | storTerminalReply
deriving DecidableEq, Repr

/-- The join logic both events run over the state
`(eitherTransferOrCommandComplete, resolved)`: the first event to
fire only sets the flag; an event that finds the flag already set
resolves the promise. -/
def putDataStep (st : Bool × Bool) (_e : PutDataEvent) : Bool × Bool :=
  if st.1 then (st.1, true) else (true, st.2)

/-- The `putData` state after a sequence of completion events,
starting from `eitherTransferOrCommandComplete = false` and an
unresolved promise. -/
def putDataRun (events : List PutDataEvent) : Bool × Bool :=
  events.foldl putDataStep (false, false)

/-- Whether the promise returned by `putData` has resolved after the
given events. -/
def putDataResolved (events : List PutDataEvent) : Bool :=
  (putDataRun events).2

/-- C2: `putData` resolves only after both the data-socket close and
the STOR command's terminal FTP reply have fired — it resolves in
either firing order, and never after only one (or none) of the two
events. -/
theorem putData_resolves_after_both_events :
    putDataResolved [PutDataEvent.dataSocketClose, PutDataEvent.storTerminalReply] = true
  ∧ putDataResolved [PutDataEvent.storTerminalReply, PutDataEvent.dataSocketClose] = true
  ∧ (∀ e : PutDataEvent, putDataResolved [e] = false)
  ∧ putDataResolved [] = false := by
  refine ⟨rfl, rfl, ?_, rfl⟩
  intro e
  cases e <;> rfl

/-- JavaScript `parseInt` on a string: leading spaces are skipped, an
optional sign is read, and the longest decimal-digit prefix gives the
value; `none` models `NaN` when no digit is found. -/
def jsParseInt (s : List Char) : Option Int :=
  match s.dropWhile (· = ' ') with
  | '-' :: rest =>
    if (rest.takeWhile isDigitChar).isEmpty then none
    else some (-(digitsToNat (rest.takeWhile isDigitChar) : Int))
  | '+' :: rest =>
    if (rest.takeWhile isDigitChar).isEmpty then none
    else some (digitsToNat (rest.takeWhile isDigitChar))
  | t =>
    if (t.takeWhile isDigitChar).isEmpty then none
    else some (digitsToNat (t.takeWhile isDigitChar))

/-- A parsed FTP control-channel line: `parseInt(chunk.slice(0,3))`
and `chunk.slice(4, chunk.byteLength - 2)` (the message between the
separator and the trailing CRLF); a `none` status models `NaN`. -/
structure FTPReply where
  status  : Option Int
  message : List Char
deriving DecidableEq, Repr

/-- The `data` handler's parsing of an inbound chunk
(`ZebraFTPClient.connect`, socket `data` listener). -/
def parseFTPChunk (chunk : List Char) : FTPReply :=
  { status  := jsParseInt (chunk.take 3)
    message := (chunk.drop 4).take (chunk.length - 2 - 4) }

/-- Which callback a `_sendQueue` entry holds: the connection-greeting
callback pushed by `connect`, or a `_send` command callback (which
re-arms itself on 1xx replies). -/
inductive FTPCallbackKind where
  | connectGreeting
  | sendCommand
deriving DecidableEq, Repr

/-- One `_sendQueue` entry; `pid` identifies the caller's promise so
settlements can be counted per logical operation. -/
structure SendEntry where
  pid  : Nat
  kind : FTPCallbackKind
deriving DecidableEq, Repr

/-- How a caller's promise settles: `ok` models a resolution with the
reply, `err` models a rejection with `FTPResponseError(status, message)`. -/
inductive FTPOutcome where
  | ok  (reply : FTPReply)
  | err (reply : FTPReply)
deriving DecidableEq, Repr

/-- `lo <= status && status < hi` with JavaScript semantics: every
comparison against `NaN` is false. -/
def statusInRange (st : Option Int) (lo hi : Int) : Bool :=
  match st with
  | none   => false
  | some s => lo ≤ s && s < hi

/-- The socket `data` handler plus the callback it invokes: parse the
chunk, shift the oldest `_sendQueue` entry (no entry: do nothing), and
either reject it (4xx/5xx `FTPResponseError`), resolve it, or — for a
`_send` callback receiving a 1xx status — re-queue the same logical
operation (`resolve(this._send(FTP_100_RETRY_SYMBOL))`) without
settling the caller's promise.  Returns the new queue and the list of
settled promises. -/
def handleData (queue : List SendEntry) (chunk : List Char) :
    List SendEntry × List (Nat × FTPOutcome) :=
  let reply := parseFTPChunk chunk
  match queue with
  | [] => ([], [])
  | e :: rest =>
    if statusInRange reply.status 400 600 then
      (rest, [(e.pid, .err reply)])
    else
      match e.kind with
      | .connectGreeting => (rest, [(e.pid, .ok reply)])
      | .sendCommand =>
        if statusInRange reply.status 100 200 then
          (rest ++ [e], [])
        else
          (rest, [(e.pid, .ok reply)])

/-- Feed a sequence of inbound control-channel chunks through the
`data` handler, accumulating every promise settlement. -/
def runFTP (queue : List SendEntry) (chunks : List (List Char)) :
    List SendEntry × List (Nat × FTPOutcome) :=
  chunks.foldl
    (fun st chunk => ((handleData st.1 chunk).1, st.2 ++ (handleData st.1 chunk).2))
    (queue, [])

/-- C1: command/response correlation of the FTP client.  A `220 ready`
greeting resolves the connection callback (so `connect()` resolves);
a `530 not logged in` reply to the queued `USER` command settles it
with an `FTPResponseError` carrying status 530 (so `connect()`, which
awaits `_send('USER ...')`, rejects with it); and a command that
receives a 1xx intermediate reply followed by a 226 terminal reply
settles exactly once, with the 226 reply as its outcome. -/
theorem ftp_response_correlation_spec :
    (handleData [⟨0, .connectGreeting⟩] "220 ready\r\n".data
      = ([], [(0, FTPOutcome.ok ⟨some 220, "ready".data⟩)]))
  ∧ (handleData [⟨0, .sendCommand⟩] "530 not logged in\r\n".data
      = ([], [(0, FTPOutcome.err ⟨some 530, "not logged in".data⟩)]))
  ∧ (∀ (pid : Nat) (c1 c2 : List Char) (s : Int),
      jsParseInt (c1.take 3) = some s → 100 ≤ s → s < 200 →
      jsParseInt (c2.take 3) = some 226 →
      runFTP [⟨pid, .sendCommand⟩] [c1, c2]
        = ([], [(pid, FTPOutcome.ok (parseFTPChunk c2))])) := by
  refine ⟨by decide, by decide, ?_⟩
  intro pid c1 c2 s h1 h2 h3 h4
  have hs1 : (parseFTPChunk c1).status = some s := by simp [parseFTPChunk, h1]
  have hs2 : (parseFTPChunk c2).status = some 226 := by simp [parseFTPChunk, h4]
  have hb1 : statusInRange (parseFTPChunk c1).status 400 600 = false := by
    rw [hs1]; simp [statusInRange]; omega
  have hb2 : statusInRange (parseFTPChunk c1).status 100 200 = true := by
    rw [hs1]; simp [statusInRange]; omega
  have hb3 : statusInRange (parseFTPChunk c2).status 400 600 = false := by
    rw [hs2]; decide
  have hb4 : statusInRange (parseFTPChunk c2).status 100 200 = false := by
    rw [hs2]; decide
  have e1 : handleData [⟨pid, .sendCommand⟩] c1 = ([⟨pid, .sendCommand⟩], []) := by
    simp [handleData, hb1, hb2]
  have e2 : handleData [⟨pid, FTPCallbackKind.sendCommand⟩] c2
      = ([], [(pid, FTPOutcome.ok (parseFTPChunk c2))]) := by
    simp [handleData, hb3, hb4]
  simp [runFTP, e1, e2]

/-- Witness for C1 at a concrete 1xx/226 exchange. -/
theorem ftp_response_correlation_spec_witness :
    runFTP [⟨0, FTPCallbackKind.sendCommand⟩]
        ["150 opening data connection\r\n".data, "226 transfer complete\r\n".data]
      = ([], [(0, FTPOutcome.ok (parseFTPChunk "226 transfer complete\r\n".data))]) :=
  ftp_response_correlation_spec.2.2 0 "150 opening data connection\r\n".data
    "226 transfer complete\r\n".data 150 (by decide) (by decide) (by decide) (by decide)

/-- `uint8ArrayToInteger` (src utils): big-endian byte interpretation,
`reduce((prev, curr, index) => prev + curr * 256^(pow - index), 0)`
with `pow = length - 1`. -/
def uint8ArrayToInteger (bs : List Nat) : Nat :=
  (bs.enum.map (fun p => p.2 * 256 ^ (bs.length - 1 - p.1))).sum

/-- The CRC-32 polynomial `0xEDB88320` (`CRC_POLYNOMIALS.CRC_32`). -/
def CRC_32_POLY : Nat := 0xEDB88320

/-- `bitwiseUint32AND`: the source splits each operand into the high
28 bits and the low hex digit, ANDs the halves, and reassembles them
through a hex-string round trip; that round trip is exactly
place-value reassembly, `hi * 16 + lo`. -/
def bitwiseUint32AND (a b : Nat) : Nat :=
  (Nat.land (a >>> 4) (b >>> 4)) * 16 + Nat.land (Nat.land a 15) (Nat.land b 15)

/-- `bitwiseUint32XOR`, with the same hex-string reassembly as
`bitwiseUint32AND`. -/
def bitwiseUint32XOR (a b : Nat) : Nat :=
  (Nat.xor (a >>> 4) (b >>> 4)) * 16 + Nat.xor (Nat.land a 15) (Nat.land b 15)

/-- One iteration of the outer loop of `computeCRCTable` (loop
variable `i` halving from 128 to 1): update the running remainder
once, then fill `table[i + j] = xor(rem, table[j])` for
`j = 0, 2i, 4i, ... < 256`.  The `Uint32Array` is modelled as a
`List Nat` of length 256 (a typed-array write out of range is a
no-op, like `List.set`). -/
def crcTableOuterStep (polynomial : Nat) (st : Nat × List Nat) (i : Nat) : Nat × List Nat :=
  let rem := if st.1 % 2 = 1 then bitwiseUint32XOR (st.1 >>> 1) polynomial else st.1 >>> 1
  let table := (List.range (128 / i)).foldl
    (fun t k => t.set (i + k * (2 * i)) (bitwiseUint32XOR rem (t.getD (k * (2 * i)) 0)))
    st.2
  (rem, table)

/-- `computeCRCTable(polynomial)`: the 256-entry remainder table built
by the `table[i xor j] = table[i] xor table[j]` strategy, starting
from `rem = 1` and a zero table. -/
def computeCRCTable (polynomial : Nat) : List Nat :=
  (([128, 64, 32, 16, 8, 4, 2, 1] : List Nat).foldl
    (crcTableOuterStep polynomial) (1, List.replicate 256 0)).2

/-- `computeCRCFromTable(buffer, crcTable, bits)`: table-driven CRC
starting from `0xFFFFFFFF`, with the final one's-complement and bit
mask. -/
def computeCRCFromTable (buffer : List Nat) (crcTable : List Nat) (bits : Nat := 32) : Nat :=
  let crc := buffer.foldl
    (fun crc byte => bitwiseUint32XOR (crc >>> 8) (crcTable.getD (Nat.xor (Nat.land crc 0xFF) byte) 0))
    0xFFFFFFFF
  bitwiseUint32AND (bitwiseUint32XOR crc 0xFFFFFFFF) (0xFFFFFFFF >>> (32 - bits))

/-- `isPng(buffer)`: the 8-byte PNG signature check. -/
def isPng (pngBuffer : List Nat) : Bool :=
  pngBuffer.take 8 == [0x89, 0x50, 0x4E, 0x47, 0x0D, 0x0A, 0x1A, 0x0A]

/-- `n.toString(16)` (lowercase hex digits). -/
def natToHexString (n : Nat) : List Char := Nat.toDigits 16 n

/-- A parsed PNG chunk record as `parsePng` builds it.  The `details`
field of the source is not modelled: the `continue` filter makes it
reachable only for `iCCP` chunks, where it would invoke the
explicitly out-of-scope zlib exploration. -/
structure PngChunk where
  length      : Nat
  type        : List Char
  data        : List Nat
  crc         : List Char
  crcExpected : List Char
  crcMatched  : Bool
  critical    : Bool
  isPublic    : Bool
  safeToCopy  : Bool
  recognized  : Bool
deriving DecidableEq, Repr

/-- The keys of `PNG_CHUNK_DETAILS` (chunk types with a structured
decoder). -/
def PNG_CHUNK_DETAILS_KEYS : List (List Char) :=
  ["IHDR".data, "PLTE".data, "IDAT".data, "IEND".data,
   "iCCP".data, "gAMA".data, "pHYs".data, "sRGB".data]

/-- The chunk-reading loop of `parsePng`, starting at offset 8 after
the signature: read the 4-byte big-endian length, 4-byte type,
`length` bytes of data and the 4-byte stored CRC; `continue` (keep no
record) unless the type is `iCCP`; otherwise compute the expected
CRC over type+data and record the chunk with its `crcMatched` flag
and type-case-derived flags.  The fuel argument only forces
termination; `parsePngChunks` passes enough for any buffer. -/
def parsePngAux (pngBuffer : List Nat) (crc32Table : List Nat) : Nat → Nat → List PngChunk
  | 0, _ => []
  | fuel + 1, i =>
    if i < pngBuffer.length then
      let chunkLength := uint8ArrayToInteger ((pngBuffer.drop i).take 4)
      let chunkType := uint8ArrayToString ((pngBuffer.drop (i + 4)).take 4)
      let chunkData := (pngBuffer.drop (i + 8)).take chunkLength
      let chunkCRCData := (pngBuffer.drop (i + 4)).take (4 + chunkLength)
      let chunkCRC := uint8ArrayToInteger ((pngBuffer.drop (i + 8 + chunkLength)).take 4)
      if chunkType = "iCCP".data then
        let upper := chunkType.map (fun c => c.toUpper == c)
        let crcExpected := computeCRCFromTable chunkCRCData crc32Table
        { length      := chunkLength
          type        := chunkType
          data        := chunkData
          crc         := natToHexString chunkCRC
          crcExpected := natToHexString crcExpected
          crcMatched  := chunkCRC == crcExpected
          critical    := (upper[0]?).getD false
          isPublic    := (upper[1]?).getD false
          safeToCopy  := !((upper[3]?).getD false)
          recognized  := ((upper[2]?).getD false) && PNG_CHUNK_DETAILS_KEYS.contains chunkType
        } :: parsePngAux pngBuffer crc32Table fuel (i + 12 + chunkLength)
      else
        parsePngAux pngBuffer crc32Table fuel (i + 12 + chunkLength)
    else []

/-- The chunk records accumulated by `parsePng(pngBuffer)`.  The
source function pushes these onto a local `chunks` array (and logs
them); it has no `return` statement, so none of them reach the
caller. -/
def parsePngChunks (pngBuffer : List Nat) : List PngChunk :=
  parsePngAux pngBuffer (computeCRCTable CRC_32_POLY) (pngBuffer.length + 1) 8

/-- A PNG buffer with a valid signature and a single IHDR chunk
(1x1, bit depth 8) whose stored CRC has been zeroed out (corrupted). -/
def corruptedIHDRPng : List Nat :=
  [0x89, 0x50, 0x4E, 0x47, 0x0D, 0x0A, 0x1A, 0x0A,
   0, 0, 0, 13,
   73, 72, 68, 82,
   0, 0, 0, 1, 0, 0, 0, 1, 8, 0, 0, 0, 0,
   0, 0, 0, 0]

/-- A PNG buffer with a valid signature and a single iCCP chunk of
3 data bytes whose stored CRC has been zeroed out (corrupted). -/
def corruptedICCPPng : List Nat :=
  [0x89, 0x50, 0x4E, 0x47, 0x0D, 0x0A, 0x1A, 0x0A,
   0, 0, 0, 3,
   105, 67, 67, 80,
   120, 0, 0,
   0, 0, 0, 0]



/-! The next eight definitions are the intermediate states of the
`computeCRCTable` outer loop, precomputed so the table construction
can be kernel-checked one outer iteration at a time against the
source-derived `crcTableOuterStep`. -/

/-- The remainder table after the first 1 outer iterations of
`computeCRCTable` (loop variable i = 128). -/
def crcTableS1 : List Nat :=
  [
   0, 0, 0, 0, 0, 0, 0, 0,
   0, 0, 0, 0, 0, 0, 0, 0,
   0, 0, 0, 0, 0, 0, 0, 0,
   0, 0, 0, 0, 0, 0, 0, 0,
   0, 0, 0, 0, 0, 0, 0, 0,
   0, 0, 0, 0, 0, 0, 0, 0,
   0, 0, 0, 0, 0, 0, 0, 0,
   0, 0, 0, 0, 0, 0, 0, 0,
   0, 0, 0, 0, 0, 0, 0, 0,
   0, 0, 0, 0, 0, 0, 0, 0,
   0, 0, 0, 0, 0, 0, 0, 0,
   0, 0, 0, 0, 0, 0, 0, 0,
   0, 0, 0, 0, 0, 0, 0, 0,
   0, 0, 0, 0, 0, 0, 0, 0,
   0, 0, 0, 0, 0, 0, 0, 0,
   0, 0, 0, 0, 0, 0, 0, 0,
   3988292384, 0, 0, 0, 0, 0, 0, 0,
   0, 0, 0, 0, 0, 0, 0, 0,
   0, 0, 0, 0, 0, 0, 0, 0,
   0, 0, 0, 0, 0, 0, 0, 0,
   0, 0, 0, 0, 0, 0, 0, 0,
   0, 0, 0, 0, 0, 0, 0, 0,
   0, 0, 0, 0, 0, 0, 0, 0,
   0, 0, 0, 0, 0, 0, 0, 0,
   0, 0, 0, 0, 0, 0, 0, 0,
   0, 0, 0, 0, 0, 0, 0, 0,
   0, 0, 0, 0, 0, 0, 0, 0,
   0, 0, 0, 0, 0, 0, 0, 0,
   0, 0, 0, 0, 0, 0, 0, 0,
   0, 0, 0, 0, 0, 0, 0, 0,
   0, 0, 0, 0, 0, 0, 0, 0,
   0, 0, 0, 0, 0, 0, 0, 0]

/-- The remainder table after the first 2 outer iterations of
`computeCRCTable` (loop variable i = 64). -/
def crcTableS2 : List Nat :=
  [
   0, 0, 0, 0, 0, 0, 0, 0,
   0, 0, 0, 0, 0, 0, 0, 0,
   0, 0, 0, 0, 0, 0, 0, 0,
   0, 0, 0, 0, 0, 0, 0, 0,
   0, 0, 0, 0, 0, 0, 0, 0,
   0, 0, 0, 0, 0, 0, 0, 0,
   0, 0, 0, 0, 0, 0, 0, 0,
   0, 0, 0, 0, 0, 0, 0, 0,
   1994146192, 0, 0, 0, 0, 0, 0, 0,
   0, 0, 0, 0, 0, 0, 0, 0,
   0, 0, 0, 0, 0, 0, 0, 0,
   0, 0, 0, 0, 0, 0, 0, 0,
   0, 0, 0, 0, 0, 0, 0, 0,
   0, 0, 0, 0, 0, 0, 0, 0,
   0, 0, 0, 0, 0, 0, 0, 0,
   0, 0, 0, 0, 0, 0, 0, 0,
   3988292384, 0, 0, 0, 0, 0, 0, 0,
   0, 0, 0, 0, 0, 0, 0, 0,
   0, 0, 0, 0, 0, 0, 0, 0,
   0, 0, 0, 0, 0, 0, 0, 0,
   0, 0, 0, 0, 0, 0, 0, 0,
   0, 0, 0, 0, 0, 0, 0, 0,
   0, 0, 0, 0, 0, 0, 0, 0,
   0, 0, 0, 0, 0, 0, 0, 0,
   2607071920, 0, 0, 0, 0, 0, 0, 0,
   0, 0, 0, 0, 0, 0, 0, 0,
   0, 0, 0, 0, 0, 0, 0, 0,
   0, 0, 0, 0, 0, 0, 0, 0,
   0, 0, 0, 0, 0, 0, 0, 0,
   0, 0, 0, 0, 0, 0, 0, 0,
   0, 0, 0, 0, 0, 0, 0, 0,
   0, 0, 0, 0, 0, 0, 0, 0]

/-- The remainder table after the first 3 outer iterations of
`computeCRCTable` (loop variable i = 32). -/
def crcTableS3 : List Nat :=
  [
   0, 0, 0, 0, 0, 0, 0, 0,
   0, 0, 0, 0, 0, 0, 0, 0,
   0, 0, 0, 0, 0, 0, 0, 0,
   0, 0, 0, 0, 0, 0, 0, 0,
   997073096, 0, 0, 0, 0, 0, 0, 0,
   0, 0, 0, 0, 0, 0, 0, 0,
   0, 0, 0, 0, 0, 0, 0, 0,
   0, 0, 0, 0, 0, 0, 0, 0,
   1994146192, 0, 0, 0, 0, 0, 0, 0,
   0, 0, 0, 0, 0, 0, 0, 0,
   0, 0, 0, 0, 0, 0, 0, 0,
   0, 0, 0, 0, 0, 0, 0, 0,
   1303535960, 0, 0, 0, 0, 0, 0, 0,
   0, 0, 0, 0, 0, 0, 0, 0,
   0, 0, 0, 0, 0, 0, 0, 0,
   0, 0, 0, 0, 0, 0, 0, 0,
   3988292384, 0, 0, 0, 0, 0, 0, 0,
   0, 0, 0, 0, 0, 0, 0, 0,
   0, 0, 0, 0, 0, 0, 0, 0,
   0, 0, 0, 0, 0, 0, 0, 0,
   3604390888, 0, 0, 0, 0, 0, 0, 0,
   0, 0, 0, 0, 0, 0, 0, 0,
   0, 0, 0, 0, 0, 0, 0, 0,
   0, 0, 0, 0, 0, 0, 0, 0,
   2607071920, 0, 0, 0, 0, 0, 0, 0,
   0, 0, 0, 0, 0, 0, 0, 0,
   0, 0, 0, 0, 0, 0, 0, 0,
   0, 0, 0, 0, 0, 0, 0, 0,
   2685067896, 0, 0, 0, 0, 0, 0, 0,
   0, 0, 0, 0, 0, 0, 0, 0,
   0, 0, 0, 0, 0, 0, 0, 0,
   0, 0, 0, 0, 0, 0, 0, 0]

/-- The remainder table after the first 4 outer iterations of
`computeCRCTable` (loop variable i = 16). -/
def crcTableS4 : List Nat :=
  [
   0, 0, 0, 0, 0, 0, 0, 0,
   0, 0, 0, 0, 0, 0, 0, 0,
   498536548, 0, 0, 0, 0, 0, 0, 0,
   0, 0, 0, 0, 0, 0, 0, 0,
   997073096, 0, 0, 0, 0, 0, 0, 0,
   0, 0, 0, 0, 0, 0, 0, 0,
   651767980, 0, 0, 0, 0, 0, 0, 0,
   0, 0, 0, 0, 0, 0, 0, 0,
   1994146192, 0, 0, 0, 0, 0, 0, 0,
   0, 0, 0, 0, 0, 0, 0, 0,
   1802195444, 0, 0, 0, 0, 0, 0, 0,
   0, 0, 0, 0, 0, 0, 0, 0,
   1303535960, 0, 0, 0, 0, 0, 0, 0,
   0, 0, 0, 0, 0, 0, 0, 0,
   1342533948, 0, 0, 0, 0, 0, 0, 0,
   0, 0, 0, 0, 0, 0, 0, 0,
   3988292384, 0, 0, 0, 0, 0, 0, 0,
   0, 0, 0, 0, 0, 0, 0, 0,
   4027552580, 0, 0, 0, 0, 0, 0, 0,
   0, 0, 0, 0, 0, 0, 0, 0,
   3604390888, 0, 0, 0, 0, 0, 0, 0,
   0, 0, 0, 0, 0, 0, 0, 0,
   3412177804, 0, 0, 0, 0, 0, 0, 0,
   0, 0, 0, 0, 0, 0, 0, 0,
   2607071920, 0, 0, 0, 0, 0, 0, 0,
   0, 0, 0, 0, 0, 0, 0, 0,
   2262029012, 0, 0, 0, 0, 0, 0, 0,
   0, 0, 0, 0, 0, 0, 0, 0,
   2685067896, 0, 0, 0, 0, 0, 0, 0,
   0, 0, 0, 0, 0, 0, 0, 0,
   3183342108, 0, 0, 0, 0, 0, 0, 0,
   0, 0, 0, 0, 0, 0, 0, 0]

/-- The remainder table after the first 5 outer iterations of
`computeCRCTable` (loop variable i = 8). -/
def crcTableS5 : List Nat :=
  [
   0, 0, 0, 0, 0, 0, 0, 0,
   249268274, 0, 0, 0, 0, 0, 0, 0,
   498536548, 0, 0, 0, 0, 0, 0, 0,
   325883990, 0, 0, 0, 0, 0, 0, 0,
   997073096, 0, 0, 0, 0, 0, 0, 0,
   901097722, 0, 0, 0, 0, 0, 0, 0,
   651767980, 0, 0, 0, 0, 0, 0, 0,
   671266974, 0, 0, 0, 0, 0, 0, 0,
   1994146192, 0, 0, 0, 0, 0, 0, 0,
   2013776290, 0, 0, 0, 0, 0, 0, 0,
   1802195444, 0, 0, 0, 0, 0, 0, 0,
   1706088902, 0, 0, 0, 0, 0, 0, 0,
   1303535960, 0, 0, 0, 0, 0, 0, 0,
   1131014506, 0, 0, 0, 0, 0, 0, 0,
   1342533948, 0, 0, 0, 0, 0, 0, 0,
   1591671054, 0, 0, 0, 0, 0, 0, 0,
   3988292384, 0, 0, 0, 0, 0, 0, 0,
   3814918930, 0, 0, 0, 0, 0, 0, 0,
   4027552580, 0, 0, 0, 0, 0, 0, 0,
   4275313526, 0, 0, 0, 0, 0, 0, 0,
   3604390888, 0, 0, 0, 0, 0, 0, 0,
   3624741850, 0, 0, 0, 0, 0, 0, 0,
   3412177804, 0, 0, 0, 0, 0, 0, 0,
   3317316542, 0, 0, 0, 0, 0, 0, 0,
   2607071920, 0, 0, 0, 0, 0, 0, 0,
   2512341634, 0, 0, 0, 0, 0, 0, 0,
   2262029012, 0, 0, 0, 0, 0, 0, 0,
   2282248934, 0, 0, 0, 0, 0, 0, 0,
   2685067896, 0, 0, 0, 0, 0, 0, 0,
   2932959818, 0, 0, 0, 0, 0, 0, 0,
   3183342108, 0, 0, 0, 0, 0, 0, 0,
   3009837614, 0, 0, 0, 0, 0, 0, 0]

/-- The remainder table after the first 6 outer iterations of
`computeCRCTable` (loop variable i = 4). -/
def crcTableS6 : List Nat :=
  [
   0, 0, 0, 0, 124634137, 0, 0, 0,
   249268274, 0, 0, 0, 162941995, 0, 0, 0,
   498536548, 0, 0, 0, 450548861, 0, 0, 0,
   325883990, 0, 0, 0, 335633487, 0, 0, 0,
   997073096, 0, 0, 0, 1006888145, 0, 0, 0,
   901097722, 0, 0, 0, 853044451, 0, 0, 0,
   651767980, 0, 0, 0, 565507253, 0, 0, 0,
   671266974, 0, 0, 0, 795835527, 0, 0, 0,
   1994146192, 0, 0, 0, 1907459465, 0, 0, 0,
   2013776290, 0, 0, 0, 2137656763, 0, 0, 0,
   1802195444, 0, 0, 0, 1812370925, 0, 0, 0,
   1706088902, 0, 0, 0, 1658658271, 0, 0, 0,
   1303535960, 0, 0, 0, 1256170817, 0, 0, 0,
   1131014506, 0, 0, 0, 1141124467, 0, 0, 0,
   1342533948, 0, 0, 0, 1466479909, 0, 0, 0,
   1591671054, 0, 0, 0, 1504918807, 0, 0, 0,
   3988292384, 0, 0, 0, 3939845945, 0, 0, 0,
   3814918930, 0, 0, 0, 3826175755, 0, 0, 0,
   4027552580, 0, 0, 0, 4150417245, 0, 0, 0,
   4275313526, 0, 0, 0, 4189708143, 0, 0, 0,
   3604390888, 0, 0, 0, 3518719985, 0, 0, 0,
   3624741850, 0, 0, 0, 3747672003, 0, 0, 0,
   3412177804, 0, 0, 0, 3423369109, 0, 0, 0,
   3317316542, 0, 0, 0, 3268935591, 0, 0, 0,
   2607071920, 0, 0, 0, 2617837225, 0, 0, 0,
   2512341634, 0, 0, 0, 2463272603, 0, 0, 0,
   2262029012, 0, 0, 0, 2176718541, 0, 0, 0,
   2282248934, 0, 0, 0, 2405801727, 0, 0, 0,
   2685067896, 0, 0, 0, 2808555105, 0, 0, 0,
   2932959818, 0, 0, 0, 2847714899, 0, 0, 0,
   3183342108, 0, 0, 0, 3134207493, 0, 0, 0,
   3009837614, 0, 0, 0, 3020668471, 0, 0, 0]

/-- The remainder table after the first 7 outer iterations of
`computeCRCTable` (loop variable i = 2). -/
def crcTableS7 : List Nat :=
  [
   0, 0, 3993919788, 0, 124634137, 0, 3915621685, 0,
   249268274, 0, 3772115230, 0, 162941995, 0, 3887607047, 0,
   498536548, 0, 4089016648, 0, 450548861, 0, 4107580753, 0,
   325883990, 0, 4251122042, 0, 335633487, 0, 4195302755, 0,
   997073096, 0, 3579855332, 0, 1006888145, 0, 3524101629, 0,
   901097722, 0, 3686517206, 0, 853044451, 0, 3705015759, 0,
   651767980, 0, 3369554304, 0, 565507253, 0, 3485111705, 0,
   671266974, 0, 3322730930, 0, 795835527, 0, 3244367275, 0,
   1994146192, 0, 2563907772, 0, 1907459465, 0, 2680153253, 0,
   2013776290, 0, 2517215374, 0, 2137656763, 0, 2439277719, 0,
   1802195444, 0, 2238001368, 0, 1812370925, 0, 2181625025, 0,
   1706088902, 0, 2344532202, 0, 1658658271, 0, 2362670323, 0,
   1303535960, 0, 2747007092, 0, 1256170817, 0, 2765210733, 0,
   1131014506, 0, 2909243462, 0, 1141124467, 0, 2852801631, 0,
   1342533948, 0, 3188396048, 0, 1466479909, 0, 3110523913, 0,
   1591671054, 0, 2966460450, 0, 1504918807, 0, 3082640443, 0,
   3988292384, 0, 62317068, 0, 3939845945, 0, 81470997, 0,
   3814918930, 0, 225274430, 0, 3826175755, 0, 167816743, 0,
   4027552580, 0, 503444072, 0, 4150417245, 0, 426522225, 0,
   4275313526, 0, 282753626, 0, 4189708143, 0, 397917763, 0,
   3604390888, 0, 953729732, 0, 3518719985, 0, 1068828381, 0,
   3624741850, 0, 906185462, 0, 3747672003, 0, 829329135, 0,
   3412177804, 0, 628085408, 0, 3423369109, 0, 570562233, 0,
   3317316542, 0, 733239954, 0, 3268935591, 0, 752459403, 0,
   2607071920, 0, 1969922972, 0, 2617837225, 0, 1913087877, 0,
   2512341634, 0, 2075208622, 0, 2463272603, 0, 2094854071, 0,
   2262029012, 0, 1759359992, 0, 2176718541, 0, 1873836001, 0,
   2282248934, 0, 1711684554, 0, 2405801727, 0, 1634467795, 0,
   2685067896, 0, 1308918612, 0, 2808555105, 0, 1231636301, 0,
   2932959818, 0, 1088359270, 0, 2847714899, 0, 1202900863, 0,
   3183342108, 0, 1404277552, 0, 3134207493, 0, 1423857449, 0,
   3009837614, 0, 1567103746, 0, 3020668471, 0, 1510334235, 0]

/-- The remainder table after the first 8 outer iterations of
`computeCRCTable` (loop variable i = 1). -/
def crcTableS8 : List Nat :=
  [
   0, 1996959894, 3993919788, 2567524794, 124634137, 1886057615, 3915621685, 2657392035,
   249268274, 2044508324, 3772115230, 2547177864, 162941995, 2125561021, 3887607047, 2428444049,
   498536548, 1789927666, 4089016648, 2227061214, 450548861, 1843258603, 4107580753, 2211677639,
   325883990, 1684777152, 4251122042, 2321926636, 335633487, 1661365465, 4195302755, 2366115317,
   997073096, 1281953886, 3579855332, 2724688242, 1006888145, 1258607687, 3524101629, 2768942443,
   901097722, 1119000684, 3686517206, 2898065728, 853044451, 1172266101, 3705015759, 2882616665,
   651767980, 1373503546, 3369554304, 3218104598, 565507253, 1454621731, 3485111705, 3099436303,
   671266974, 1594198024, 3322730930, 2970347812, 795835527, 1483230225, 3244367275, 3060149565,
   1994146192, 31158534, 2563907772, 4023717930, 1907459465, 112637215, 2680153253, 3904427059,
   2013776290, 251722036, 2517215374, 3775830040, 2137656763, 141376813, 2439277719, 3865271297,
   1802195444, 476864866, 2238001368, 4066508878, 1812370925, 453092731, 2181625025, 4111451223,
   1706088902, 314042704, 2344532202, 4240017532, 1658658271, 366619977, 2362670323, 4224994405,
   1303535960, 984961486, 2747007092, 3569037538, 1256170817, 1037604311, 2765210733, 3554079995,
   1131014506, 879679996, 2909243462, 3663771856, 1141124467, 855842277, 2852801631, 3708648649,
   1342533948, 654459306, 3188396048, 3373015174, 1466479909, 544179635, 3110523913, 3462522015,
   1591671054, 702138776, 2966460450, 3352799412, 1504918807, 783551873, 3082640443, 3233442989,
   3988292384, 2596254646, 62317068, 1957810842, 3939845945, 2647816111, 81470997, 1943803523,
   3814918930, 2489596804, 225274430, 2053790376, 3826175755, 2466906013, 167816743, 2097651377,
   4027552580, 2265490386, 503444072, 1762050814, 4150417245, 2154129355, 426522225, 1852507879,
   4275313526, 2312317920, 282753626, 1742555852, 4189708143, 2394877945, 397917763, 1622183637,
   3604390888, 2714866558, 953729732, 1340076626, 3518719985, 2797360999, 1068828381, 1219638859,
   3624741850, 2936675148, 906185462, 1090812512, 3747672003, 2825379669, 829329135, 1181335161,
   3412177804, 3160834842, 628085408, 1382605366, 3423369109, 3138078467, 570562233, 1426400815,
   3317316542, 2998733608, 733239954, 1555261956, 3268935591, 3050360625, 752459403, 1541320221,
   2607071920, 3965973030, 1969922972, 40735498, 2617837225, 3943577151, 1913087877, 83908371,
   2512341634, 3803740692, 2075208622, 213261112, 2463272603, 3855990285, 2094854071, 198958881,
   2262029012, 4057260610, 1759359992, 534414190, 2176718541, 4139329115, 1873836001, 414664567,
   2282248934, 4279200368, 1711684554, 285281116, 2405801727, 4167216745, 1634467795, 376229701,
   2685067896, 3608007406, 1308918612, 956543938, 2808555105, 3495958263, 1231636301, 1047427035,
   2932959818, 3654703836, 1088359270, 936918000, 2847714899, 3736837829, 1202900863, 817233897,
   3183342108, 3401237130, 1404277552, 615818150, 3134207493, 3453421203, 1423857449, 601450431,
   3009837614, 3294710456, 1567103746, 711928724, 3020668471, 3272380065, 1510334235, 755167117]

set_option maxRecDepth 8000 in
set_option maxHeartbeats 2000000 in
/-- The CRC-32 remainder table computed by `computeCRCTable` on the
polynomial `0xEDB88320`, checked one outer iteration at a time. -/
theorem computeCRCTable_value :
    computeCRCTable CRC_32_POLY = crcTableS8 := by
  have h1 : crcTableOuterStep CRC_32_POLY (1, List.replicate 256 0) 128
      = (3988292384, crcTableS1) := by decide
  have h2 : crcTableOuterStep CRC_32_POLY (3988292384, crcTableS1) 64
      = (1994146192, crcTableS2) := by decide
  have h3 : crcTableOuterStep CRC_32_POLY (1994146192, crcTableS2) 32
      = (997073096, crcTableS3) := by decide
  have h4 : crcTableOuterStep CRC_32_POLY (997073096, crcTableS3) 16
      = (498536548, crcTableS4) := by decide
  have h5 : crcTableOuterStep CRC_32_POLY (498536548, crcTableS4) 8
      = (249268274, crcTableS5) := by decide
  have h6 : crcTableOuterStep CRC_32_POLY (249268274, crcTableS5) 4
      = (124634137, crcTableS6) := by decide
  have h7 : crcTableOuterStep CRC_32_POLY (124634137, crcTableS6) 2
      = (3993919788, crcTableS7) := by decide
  have h8 : crcTableOuterStep CRC_32_POLY (3993919788, crcTableS7) 1
      = (1996959894, crcTableS8) := by decide
  simp only [computeCRCTable, List.foldl_cons, List.foldl_nil, h1, h2, h3, h4, h5, h6, h7, h8]

set_option maxRecDepth 4000 in
/-- C3 (code bug): on a valid-signature PNG whose single IHDR chunk
has a corrupted stored CRC, `parsePng` produces no chunk record at
all — the debugging leftover `if (chunkType !== 'iCCP') continue;`
skips every non-iCCP chunk (leaving the IHDR/PLTE/pHYs/sRGB/gAMA
decoders unreachable), and the function has no return statement, so
the CRC mismatch is never surfaced to the caller.  The mismatch
detection itself works: on a corrupted iCCP chunk the internal record
does carry `crcMatched = false` together with the chunk's type,
declared length and raw data. -/
theorem parsePng_crc_mismatch_not_surfaced :
    isPng corruptedIHDRPng = true
  ∧ computeCRCFromTable ((corruptedIHDRPng.drop 12).take 17) (computeCRCTable CRC_32_POLY)
      ≠ uint8ArrayToInteger ((corruptedIHDRPng.drop 29).take 4)
  ∧ parsePngChunks corruptedIHDRPng = []
  ∧ isPng corruptedICCPPng = true
  ∧ (parsePngChunks corruptedICCPPng).map
      (fun ch => (ch.type, ch.length, ch.data, ch.crcMatched))
      = [("iCCP".data, 3, [120, 0, 0], false)] := by
  refine ⟨rfl, ?_, by decide, rfl, ?_⟩
  · rw [computeCRCTable_value]
    decide
  · simp only [parsePngChunks, computeCRCTable_value]
    decide
